import Mathlib

/-!
Verification of the account transaction pipeline and the finality poller of
the starknet client (src/starknet/net/account/account_client.py and
src/starknet/net/client.py), as a shallow embedding.

External starkware capabilities (selector derivation, the pedersen hash
primitive compute_hash_on_elements, the EC signing primitive, and the
feeder-gateway read endpoint answering call_contract) are not part of this
repository; they are passed as explicit parameters, bundled in ExternalDeps.
Network effects are made observable as a list of NetCall events, and raised
Python exceptions become explicit error values.
-/

/-- Kinds of transaction distinguished by the account client dispatch
(TransactionType.DEPLOY versus the invoke type carried by InvokeFunction). -/
inductive TransactionType
  | DEPLOY
  | INVOKE_FUNCTION
deriving DecidableEq, Repr

/-- Embedding of the InvokeFunction payload as used by account_client.py: a
transaction type tag, a target contract address, an entry point selector,
calldata, and a signature, all over field elements modelled as Nat. -/
structure InvokeFunction where
  tx_type : TransactionType
  contract_address : Nat
  entry_point_selector : Nat
  calldata : List Nat
  signature : List Nat
deriving DecidableEq, Repr

/-- KeyPair from account_client.py: a private scalar and its derived public
key. -/
structure KeyPair where
  private_key : Nat
  public_key : Nat
deriving DecidableEq, Repr

/-- KeyPair.from_private_key from account_client.py. The external derivation
primitive private_to_stark_key is passed as a parameter. -/
def KeyPair.from_private_key (private_to_stark_key : Nat → Nat) (key : Nat) : KeyPair :=
  { private_key := key, public_key := private_to_stark_key key }

/-- hash_message from account_client.py, parametrised by the external hash
primitive H (compute_hash_on_elements): the outer hash is taken over the
5-element sequence whose fourth element is the inner hash of the calldata.
The parameter named to in the source is called to_addr here, the word being
reserved in this language. -/
def hash_message (H : List Nat → Nat) (account to_addr selector : Nat)
    (calldata : List Nat) (nonce : Nat) : Nat :=
  H [account, to_addr, selector, H calldata, nonce]

/-- Restatement of the specification text for the message hasher, written
from the words of the spec for comparison with hash_message: compute a hash
over the ordered calldata first, producing a single scalar digest, then a
second hash over the 5-tuple of account, to, selector, digest and nonce. -/
def hashMessageSpecModel (H : List Nat → Nat) (account to_addr selector : Nat)
    (calldata : List Nat) (nonce : Nat) : Nat :=
  let calldata_digest := H calldata
  H [account, to_addr, selector, calldata_digest, nonce]

/-- External capabilities consumed by AccountClient.add_transaction:
selector derivation from an entry point name, the hash primitive, the EC
signing primitive (none models the primitive raising on an invalid key), and
the feeder-gateway response to a read-only call_contract request. -/
structure ExternalDeps where
  get_selector_from_name : String → Nat
  compute_hash_on_elements : List Nat → Nat
  sign : Nat → Nat → Option (Nat × Nat)
  call_response : InvokeFunction → List Nat

/-- Observable network interactions of the account client: a read-only
call_contract request to the feeder gateway, or a gateway add_transaction
submission. -/
inductive NetCall
  | call (tx : InvokeFunction)
  | submit (tx : InvokeFunction)
deriving DecidableEq, Repr

/-- Exceptions raised inside AccountClient.add_transaction: the TypeError
for a pre-signed invoke intent, the IndexError when the nonce call returns
an empty result list, and a failure raised by the signing primitive. -/
inductive AddTxError
  | signedTxUnsupported
  | nonceIndexError
  | signRaised
deriving DecidableEq, Repr

/-- The account client state: the parsed account address and its key pair. -/
structure AccountClient where
  address : Nat
  key_pair : KeyPair
deriving DecidableEq, Repr

/-- The read-only InvokeFunction built by add_transaction to fetch the
nonce: it targets the account address itself, with the selector derived from
the name get_nonce, empty calldata and empty signature. -/
def get_nonce_call (E : ExternalDeps) (address : Nat) : InvokeFunction :=
  { tx_type := TransactionType.INVOKE_FUNCTION
    contract_address := address
    entry_point_selector := E.get_selector_from_name "get_nonce"
    calldata := []
    signature := [] }

/-- The proxied execute transaction assembled by add_transaction: it targets
the account address, uses the selector derived from the name execute,
carries calldata target, selector, calldata length, the calldata elements,
and the nonce, and the signature pair r, s. -/
def execute_transaction (E : ExternalDeps) (address : Nat) (tx : InvokeFunction)
    (nonce r s : Nat) : InvokeFunction :=
  { tx_type := TransactionType.INVOKE_FUNCTION
    contract_address := address
    entry_point_selector := E.get_selector_from_name "execute"
    calldata := tx.contract_address :: tx.entry_point_selector ::
      tx.calldata.length :: (tx.calldata ++ [nonce])
    signature := [r, s] }

/-- AccountClient.add_transaction from account_client.py. A deploy intent is
forwarded unmodified to the base submission path; a non-deploy intent with a
non-empty signature raises; otherwise the nonce is fetched by a read-only
contract call, the message hash is computed and signed, and the proxied
execute transaction is submitted. The first component records the network
calls actually made, in order; the second carries the raised error, if any. -/
def AccountClient.add_transaction (E : ExternalDeps) (self : AccountClient)
    (tx : InvokeFunction) : List NetCall × Option AddTxError :=
  if tx.tx_type = TransactionType.DEPLOY then
    ([NetCall.submit tx], none)
  else if tx.signature ≠ [] then
    ([], some AddTxError.signedTxUnsupported)
  else
    let nonce_call := get_nonce_call E self.address
    match E.call_response nonce_call with
    | [] => ([NetCall.call nonce_call], some AddTxError.nonceIndexError)
    | nonce :: _ =>
      let msg_hash := hash_message E.compute_hash_on_elements self.address
        tx.contract_address tx.entry_point_selector tx.calldata nonce
      match E.sign msg_hash self.key_pair.private_key with
      | none => ([NetCall.call nonce_call], some AddTxError.signRaised)
      | some (r, s) =>
        ([NetCall.call nonce_call,
          NetCall.submit (execute_transaction E self.address tx nonce r s)], none)

/-- Transaction status values. The five named members are those referenced
by client.py. Modelled from the spec: starknet/constants.py, which defines
the TxStatus enum, is not in the source tree; the spec describes the status
set as the five named members plus an unknown catch-all, represented here by
the UNKNOWN member. -/
inductive TxStatus
  | NOT_RECEIVED
  | RECEIVED
  | PENDING
  | ACCEPTED_ONCHAIN
  | REJECTED
  | UNKNOWN
deriving DecidableEq, Repr

/-- One response of get_transaction as consumed by wait_for_tx: the parsed
status, and the block_number field when present in the JSON object. -/
structure PollResult where
  status : TxStatus
  block_number : Option Nat
deriving DecidableEq, Repr

/-- Terminal outcomes of wait_for_tx: a normal return of block number and
status, the exception raised for a rejected transaction, the exception for a
NOT_RECEIVED status after the first poll, the exception for an unknown
status, the KeyError from reading an absent block_number on an accepted
transaction, the ValueError for a non-positive check_interval, and
exhaustion of the scripted poll sequence while the loop would keep polling. -/
inductive WaitOutcome
  | returned (block_number : Nat) (status : TxStatus)
  | rejectedError
  | notReceivedError
  | unknownStatusError
  | keyError
  | valueError
  | exhausted
deriving DecidableEq, Repr

/-- The polling loop body of Client.wait_for_tx, recursing over a scripted
sequence of poll responses. first_run mirrors the flag of the same name;
consumed counts the get_transaction network calls made so far, and each
processed response counts as one. An empty script while still polling yields
the exhausted marker. -/
def Client.wait_for_tx_loop (wait_for_accept : Bool) (first_run : Bool)
    (consumed : Nat) : List PollResult → WaitOutcome × Nat
  | [] => (WaitOutcome.exhausted, consumed)
  | r :: rest =>
    match r.status with
    | TxStatus.ACCEPTED_ONCHAIN =>
      match r.block_number with
      | some b => (WaitOutcome.returned b TxStatus.ACCEPTED_ONCHAIN, consumed + 1)
      | none => (WaitOutcome.keyError, consumed + 1)
    | TxStatus.PENDING =>
      if !wait_for_accept && r.block_number.isSome then
        (WaitOutcome.returned (r.block_number.getD 0) TxStatus.PENDING, consumed + 1)
      else
        Client.wait_for_tx_loop wait_for_accept false (consumed + 1) rest
    | TxStatus.REJECTED => (WaitOutcome.rejectedError, consumed + 1)
    | TxStatus.NOT_RECEIVED =>
      if first_run then
        Client.wait_for_tx_loop wait_for_accept false (consumed + 1) rest
      else
        (WaitOutcome.notReceivedError, consumed + 1)
    | TxStatus.RECEIVED => Client.wait_for_tx_loop wait_for_accept false (consumed + 1) rest
    | TxStatus.UNKNOWN => (WaitOutcome.unknownStatusError, consumed + 1)

/-- Client.wait_for_tx from client.py, over a scripted sequence of poll
responses. The tx_hash argument is omitted: it only appears inside the
exception message strings. A non-positive check_interval raises the
ValueError before any poll is made. -/
def Client.wait_for_tx (wait_for_accept : Bool) (check_interval : Int)
    (polls : List PollResult) : WaitOutcome × Nat :=
  if check_interval ≤ 0 then (WaitOutcome.valueError, 0)
  else Client.wait_for_tx_loop wait_for_accept true 0 polls

/-- Concrete external dependencies for the closed instances below: distinct
selector values for the two entry point names, a computable stand-in hash
primitive, a signing primitive that fails exactly on the zero key and
otherwise returns the fixed pair of values 1 and 2, and a feeder-gateway
response answering the get_nonce call with the result list holding 7. -/
def sampleDeps : ExternalDeps :=
  { get_selector_from_name := fun nm =>
      if nm = "execute" then 900 else if nm = "get_nonce" then 800 else 0
    compute_hash_on_elements := fun l => l.sum
    sign := fun _ k => if k = 0 then none else some (1, 2)
    call_response := fun c => if c.entry_point_selector = 800 then [7] else [] }

/-- Concrete account with a non-zero private key. -/
def sampleAccount : AccountClient :=
  { address := 99, key_pair := { private_key := 5, public_key := 55 } }

/-- Concrete unsigned invoke intent: contract 3, selector 4, calldata
list 1, 2, 3, empty signature. -/
def sampleTx : InvokeFunction :=
  { tx_type := TransactionType.INVOKE_FUNCTION
    contract_address := 3
    entry_point_selector := 4
    calldata := [1, 2, 3]
    signature := [] }

/-- Concrete invoke intent already carrying a non-empty signature. -/
def sampleSignedTx : InvokeFunction :=
  { tx_type := TransactionType.INVOKE_FUNCTION
    contract_address := 3
    entry_point_selector := 4
    calldata := [1, 2, 3]
    signature := [9] }

/-- Concrete account whose private key is zero, on which the signing
primitive of sampleDeps fails. -/
def zeroKeyAccount : AccountClient :=
  { address := 99, key_pair := { private_key := 0, public_key := 0 } }

/-- C3: for every account, to, selector, calldata sequence, and nonce,
hash_message equals the outer hash of the 5-element sequence account, to,
selector, d, nonce, where d is the inner hash of the calldata sequence
alone; equivalently it agrees with the restatement of the spec text, and the
outer sequence has length 5 regardless of the calldata length. -/
theorem C3_hash_message_two_level (H : List Nat → Nat) (account to_addr selector : Nat)
    (calldata : List Nat) (nonce : Nat) :
    hash_message H account to_addr selector calldata nonce =
      H [account, to_addr, selector, H calldata, nonce] ∧
    hash_message H account to_addr selector calldata nonce =
      hashMessageSpecModel H account to_addr selector calldata nonce ∧
    List.length [account, to_addr, selector, H calldata, nonce] = 5 :=
  ⟨rfl, rfl, rfl⟩

/-- C9: hash_message and KeyPair.from_private_key are deterministic pure
functions: two invocations on identical inputs produce identical outputs,
with no dependence on hidden state; in this embedding both are total
functions of their explicit arguments only. -/
theorem C9_hash_and_keypair_deterministic :
    (∀ (H : List Nat → Nat) (account to_addr selector : Nat)
        (calldata : List Nat) (nonce : Nat),
      hash_message H account to_addr selector calldata nonce =
        hash_message H account to_addr selector calldata nonce) ∧
    (∀ (private_to_stark_key : Nat → Nat) (k : Nat),
      KeyPair.from_private_key private_to_stark_key k =
        KeyPair.from_private_key private_to_stark_key k) :=
  ⟨fun _ _ _ _ _ _ => rfl, fun _ _ => rfl⟩

/-- C2: for every non-deploy intent whose signature field is non-empty,
add_transaction raises the validation error with an empty network-call
trace, for every choice of external dependencies: neither the nonce-fetch
contract call, nor the signing capability, nor the submission endpoint is
reached. -/
theorem C2_presigned_rejected_before_network (E : ExternalDeps) (self : AccountClient)
    (tx : InvokeFunction)
    (htype : tx.tx_type ≠ TransactionType.DEPLOY)
    (hsig : tx.signature ≠ []) :
    AccountClient.add_transaction E self tx = ([], some AddTxError.signedTxUnsupported) := by
  unfold AccountClient.add_transaction
  rw [if_neg htype, if_pos hsig]

/-- Closed instance of C2 at the concrete pre-signed intent. -/
theorem C2_presigned_rejected_before_network_witness :
    AccountClient.add_transaction sampleDeps sampleAccount sampleSignedTx =
      ([], some AddTxError.signedTxUnsupported) :=
  C2_presigned_rejected_before_network sampleDeps sampleAccount sampleSignedTx
    (by decide) (by decide)

/-- C10: every deploy intent is forwarded unmodified to the base submission
path, even when its signature field is non-empty: the deploy short-circuit
is evaluated before the pre-signed-signature rejection. -/
theorem C10_deploy_passthrough (E : ExternalDeps) (self : AccountClient)
    (contract_address entry_point_selector : Nat) (calldata signature : List Nat) :
    AccountClient.add_transaction E self
      { tx_type := TransactionType.DEPLOY
        contract_address := contract_address
        entry_point_selector := entry_point_selector
        calldata := calldata
        signature := signature } =
      ([NetCall.submit
        { tx_type := TransactionType.DEPLOY
          contract_address := contract_address
          entry_point_selector := entry_point_selector
          calldata := calldata
          signature := signature }], none) := by
  unfold AccountClient.add_transaction
  rw [if_pos rfl]

/-- C1: for every regular invoke intent (non-deploy type, empty signature)
with target contract C, selector S and calldata cd, and fetched nonce n (the
head of the nonce-call response), add_transaction submits, after the single
nonce-fetch read, a transaction whose contract_address is the account
address itself, whose entry_point_selector derives from the literal name
execute, whose calldata is C, S, the length of cd, the elements of cd, and
n, and whose signature is the pair r, s produced by signing the message
hash. -/
theorem C1_execute_wrapping (E : ExternalDeps) (self : AccountClient)
    (tx : InvokeFunction) (nonce r s : Nat) (rest_1 : List Nat)
    (htype : tx.tx_type ≠ TransactionType.DEPLOY)
    (hsig : tx.signature = [])
    (hnonce : E.call_response (get_nonce_call E self.address) = nonce :: rest_1)
    (hsign : E.sign (hash_message E.compute_hash_on_elements self.address
        tx.contract_address tx.entry_point_selector tx.calldata nonce)
        self.key_pair.private_key = some (r, s)) :
    AccountClient.add_transaction E self tx =
      ([NetCall.call (get_nonce_call E self.address),
        NetCall.submit (execute_transaction E self.address tx nonce r s)], none) ∧
    (execute_transaction E self.address tx nonce r s).contract_address = self.address ∧
    (execute_transaction E self.address tx nonce r s).entry_point_selector =
      E.get_selector_from_name "execute" ∧
    (execute_transaction E self.address tx nonce r s).calldata =
      [tx.contract_address, tx.entry_point_selector, tx.calldata.length] ++
        tx.calldata ++ [nonce] ∧
    (execute_transaction E self.address tx nonce r s).signature = [r, s] := by
  refine ⟨?_, rfl, rfl, ?_, rfl⟩
  · unfold AccountClient.add_transaction
    rw [if_neg htype, if_neg (fun h => h hsig)]
    simp only [hnonce, hsign]
  · simp [execute_transaction]

/-- Closed instance of C1 at the concrete fixtures: nonce 7 fetched, the
signature pair 1, 2 attached, calldata re-encoded as 3, 4, 3, 1, 2, 3, 7,
and the submission targeting the account address 99 rather than the target
contract 3. -/
theorem C1_execute_wrapping_witness :
    AccountClient.add_transaction sampleDeps sampleAccount sampleTx =
      ([NetCall.call (get_nonce_call sampleDeps sampleAccount.address),
        NetCall.submit (execute_transaction sampleDeps sampleAccount.address sampleTx 7 1 2)],
       none) ∧
    (execute_transaction sampleDeps sampleAccount.address sampleTx 7 1 2).contract_address =
      sampleAccount.address ∧
    (execute_transaction sampleDeps sampleAccount.address sampleTx 7 1 2).entry_point_selector =
      sampleDeps.get_selector_from_name "execute" ∧
    (execute_transaction sampleDeps sampleAccount.address sampleTx 7 1 2).calldata =
      [sampleTx.contract_address, sampleTx.entry_point_selector, sampleTx.calldata.length] ++
        sampleTx.calldata ++ [7] ∧
    (execute_transaction sampleDeps sampleAccount.address sampleTx 7 1 2).signature = [1, 2] :=
  C1_execute_wrapping sampleDeps sampleAccount sampleTx 7 1 2 []
    (by decide) rfl (by decide) (by decide)

/-- C8: during an invoke submission the nonce is obtained by a read-only
contract call targeting the account address itself, with the selector
derived from the name get_nonce and empty calldata; that call is the first
network interaction, and the nonce used in the submitted transaction is
exactly the head of the result list of that call. -/
theorem C8_nonce_via_get_nonce_call (E : ExternalDeps) (self : AccountClient)
    (tx : InvokeFunction) (nonce r s : Nat) (rest_1 : List Nat)
    (htype : tx.tx_type ≠ TransactionType.DEPLOY)
    (hsig : tx.signature = [])
    (hnonce : E.call_response (get_nonce_call E self.address) = nonce :: rest_1)
    (hsign : E.sign (hash_message E.compute_hash_on_elements self.address
        tx.contract_address tx.entry_point_selector tx.calldata nonce)
        self.key_pair.private_key = some (r, s)) :
    (get_nonce_call E self.address).contract_address = self.address ∧
    (get_nonce_call E self.address).entry_point_selector =
      E.get_selector_from_name "get_nonce" ∧
    (get_nonce_call E self.address).calldata = [] ∧
    (AccountClient.add_transaction E self tx).1.head? =
      some (NetCall.call (get_nonce_call E self.address)) ∧
    AccountClient.add_transaction E self tx =
      ([NetCall.call (get_nonce_call E self.address),
        NetCall.submit (execute_transaction E self.address tx nonce r s)], none) ∧
    (execute_transaction E self.address tx nonce r s).calldata.getLast? = some nonce := by
  have hmain : AccountClient.add_transaction E self tx =
      ([NetCall.call (get_nonce_call E self.address),
        NetCall.submit (execute_transaction E self.address tx nonce r s)], none) := by
    unfold AccountClient.add_transaction
    rw [if_neg htype, if_neg (fun h => h hsig)]
    simp only [hnonce, hsign]
  have hcat : (execute_transaction E self.address tx nonce r s).calldata =
      (tx.contract_address :: tx.entry_point_selector ::
        tx.calldata.length :: tx.calldata) ++ [nonce] := by
    simp [execute_transaction]
  refine ⟨rfl, rfl, rfl, ?_, hmain, ?_⟩
  · rw [hmain]
    rfl
  · rw [hcat, List.getLast?_concat]

/-- Closed instance of C8 at the concrete fixtures: the nonce call targets
address 99 with empty calldata, is the first network call, and the fetched
head 7 of its result list is the nonce placed in the submitted calldata. -/
theorem C8_nonce_via_get_nonce_call_witness :
    (get_nonce_call sampleDeps sampleAccount.address).contract_address =
      sampleAccount.address ∧
    (get_nonce_call sampleDeps sampleAccount.address).entry_point_selector =
      sampleDeps.get_selector_from_name "get_nonce" ∧
    (get_nonce_call sampleDeps sampleAccount.address).calldata = [] ∧
    (AccountClient.add_transaction sampleDeps sampleAccount sampleTx).1.head? =
      some (NetCall.call (get_nonce_call sampleDeps sampleAccount.address)) ∧
    AccountClient.add_transaction sampleDeps sampleAccount sampleTx =
      ([NetCall.call (get_nonce_call sampleDeps sampleAccount.address),
        NetCall.submit (execute_transaction sampleDeps sampleAccount.address sampleTx 7 1 2)],
       none) ∧
    (execute_transaction sampleDeps sampleAccount.address sampleTx 7 1 2).calldata.getLast? =
      some 7 :=
  C8_nonce_via_get_nonce_call sampleDeps sampleAccount sampleTx 7 1 2 []
    (by decide) rfl (by decide) (by decide)

/-- C4 counterexample: with the zero private key, on which the signing
capability fails, the concrete invoke submission still performs the
nonce-fetch contract call before the failure is raised: the network-call
trace at the point of failure is non-empty, refuting the claim that the
failure is surfaced before any network call is made. -/
theorem C4_counterexample_nonce_fetch_precedes_failure :
    AccountClient.add_transaction sampleDeps zeroKeyAccount sampleTx =
      ([NetCall.call (get_nonce_call sampleDeps zeroKeyAccount.address)],
       some AddTxError.signRaised) ∧
    (AccountClient.add_transaction sampleDeps zeroKeyAccount sampleTx).1 ≠ [] :=
  ⟨by decide, by decide⟩

/-- C4 amended: for every invoke submission on which the signing capability
fails (in particular an invalid or zero private key), the failure is
surfaced synchronously to the caller before the submission endpoint is
reached, but after the nonce-fetch contract call: the nonce fetch is the
only network call made and nothing is submitted. -/
theorem C4_invalid_key_fails_before_submission (E : ExternalDeps) (self : AccountClient)
    (tx : InvokeFunction) (nonce : Nat) (rest_1 : List Nat)
    (htype : tx.tx_type ≠ TransactionType.DEPLOY)
    (hsig : tx.signature = [])
    (hnonce : E.call_response (get_nonce_call E self.address) = nonce :: rest_1)
    (hsignfail : E.sign (hash_message E.compute_hash_on_elements self.address
        tx.contract_address tx.entry_point_selector tx.calldata nonce)
        self.key_pair.private_key = none) :
    AccountClient.add_transaction E self tx =
      ([NetCall.call (get_nonce_call E self.address)], some AddTxError.signRaised) := by
  unfold AccountClient.add_transaction
  rw [if_neg htype, if_neg (fun h => h hsig)]
  simp only [hnonce, hsignfail]

/-- Closed instance of the amended C4 at the zero-key account. -/
theorem C4_invalid_key_fails_before_submission_witness :
    AccountClient.add_transaction sampleDeps zeroKeyAccount sampleTx =
      ([NetCall.call (get_nonce_call sampleDeps zeroKeyAccount.address)],
       some AddTxError.signRaised) :=
  C4_invalid_key_fails_before_submission sampleDeps zeroKeyAccount sampleTx 7 []
    (by decide) rfl (by decide) (by decide)

/-- C5: a NOT_RECEIVED status is tolerated only on the very first poll: on
the first poll the loop continues, on every later poll NOT_RECEIVED yields
the terminal failure, and in particular a status sequence beginning with two
NOT_RECEIVED responses fails on the second poll with exactly two polls
made. -/
theorem C5_not_received_tolerated_once_only :
    (∀ (wfa : Bool) (k : Nat) (r : PollResult) (rest : List PollResult),
      r.status = TxStatus.NOT_RECEIVED →
      Client.wait_for_tx_loop wfa false k (r :: rest) =
        (WaitOutcome.notReceivedError, k + 1)) ∧
    (∀ (wfa : Bool) (ci : Int) (r : PollResult) (rest : List PollResult),
      0 < ci → r.status = TxStatus.NOT_RECEIVED →
      Client.wait_for_tx wfa ci (r :: rest) =
        Client.wait_for_tx_loop wfa false 1 rest) ∧
    (∀ (wfa : Bool) (ci : Int) (r1 r2 : PollResult) (rest : List PollResult),
      0 < ci → r1.status = TxStatus.NOT_RECEIVED → r2.status = TxStatus.NOT_RECEIVED →
      Client.wait_for_tx wfa ci (r1 :: r2 :: rest) =
        (WaitOutcome.notReceivedError, 2)) := by
  refine ⟨?_, ?_, ?_⟩
  · intro wfa k r rest h
    simp [Client.wait_for_tx_loop, h]
  · intro wfa ci r rest hci h
    rw [Client.wait_for_tx, if_neg (by omega)]
    simp [Client.wait_for_tx_loop, h]
  · intro wfa ci r1 r2 rest hci h1 h2
    rw [Client.wait_for_tx, if_neg (by omega)]
    simp [Client.wait_for_tx_loop, h1, h2]

/-- Closed instance of C5: the sequence of two NOT_RECEIVED responses fails
on the second poll. -/
theorem C5_not_received_tolerated_once_only_witness :
    Client.wait_for_tx false 5
      [{ status := TxStatus.NOT_RECEIVED, block_number := none },
       { status := TxStatus.NOT_RECEIVED, block_number := none }] =
      (WaitOutcome.notReceivedError, 2) :=
  C5_not_received_tolerated_once_only.2.2 false 5
    { status := TxStatus.NOT_RECEIVED, block_number := none }
    { status := TxStatus.NOT_RECEIVED, block_number := none }
    [] (by decide) rfl rfl

/-- C6: on a PENDING status the loop returns immediately, with the block
number and the PENDING status, exactly when wait_for_accept is false and a
block number is present in the response; in every other PENDING case it
continues polling; and an ACCEPTED_ONCHAIN status returns immediately with
its block number regardless of wait_for_accept. -/
theorem C6_pending_return_condition :
    (∀ (first : Bool) (k b : Nat) (r : PollResult) (rest : List PollResult),
      r.status = TxStatus.PENDING → r.block_number = some b →
      Client.wait_for_tx_loop false first k (r :: rest) =
        (WaitOutcome.returned b TxStatus.PENDING, k + 1)) ∧
    (∀ (wfa first : Bool) (k : Nat) (r : PollResult) (rest : List PollResult),
      r.status = TxStatus.PENDING → (wfa = true ∨ r.block_number = none) →
      Client.wait_for_tx_loop wfa first k (r :: rest) =
        Client.wait_for_tx_loop wfa false (k + 1) rest) ∧
    (∀ (wfa first : Bool) (k b : Nat) (r : PollResult) (rest : List PollResult),
      r.status = TxStatus.ACCEPTED_ONCHAIN → r.block_number = some b →
      Client.wait_for_tx_loop wfa first k (r :: rest) =
        (WaitOutcome.returned b TxStatus.ACCEPTED_ONCHAIN, k + 1)) := by
  refine ⟨?_, ?_, ?_⟩
  · intro first k b r rest hst hb
    simp [Client.wait_for_tx_loop, hst, hb]
  · intro wfa first k r rest hst hcond
    rcases hcond with hw | hb
    · subst hw
      simp [Client.wait_for_tx_loop, hst]
    · simp [Client.wait_for_tx_loop, hst, hb]
  · intro wfa first k b r rest hst hb
    simp [Client.wait_for_tx_loop, hst, hb]

/-- Closed instance of C6: on the scripted sequence NOT_RECEIVED, RECEIVED,
PENDING with block 80, ACCEPTED_ONCHAIN with block 81, polled with
wait_for_accept false, the poller returns at the PENDING step with block 80
after three polls, not at the ACCEPTED_ONCHAIN step; the second conjunct is
the direct application of the theorem at the PENDING response. -/
theorem C6_pending_return_condition_witness :
    Client.wait_for_tx false 5
      [{ status := TxStatus.NOT_RECEIVED, block_number := none },
       { status := TxStatus.RECEIVED, block_number := none },
       { status := TxStatus.PENDING, block_number := some 80 },
       { status := TxStatus.ACCEPTED_ONCHAIN, block_number := some 81 }] =
      (WaitOutcome.returned 80 TxStatus.PENDING, 3) ∧
    Client.wait_for_tx_loop false false 2
      [{ status := TxStatus.PENDING, block_number := some 80 },
       { status := TxStatus.ACCEPTED_ONCHAIN, block_number := some 81 }] =
      (WaitOutcome.returned 80 TxStatus.PENDING, 3) :=
  ⟨by decide,
   C6_pending_return_condition.1 false 2 80
     { status := TxStatus.PENDING, block_number := some 80 }
     [{ status := TxStatus.ACCEPTED_ONCHAIN, block_number := some 81 }] rfl rfl⟩

/-- C7: for every check_interval less than or equal to zero, wait_for_tx
raises the ValueError with zero polls made, for every wait_for_accept flag
and every scripted poll sequence. -/
theorem C7_nonpositive_interval_rejected (wfa : Bool) (ci : Int)
    (polls : List PollResult) (h : ci ≤ 0) :
    Client.wait_for_tx wfa ci polls = (WaitOutcome.valueError, 0) := by
  rw [Client.wait_for_tx, if_pos h]

/-- Closed instance of C7 at the intervals zero and minus one. -/
theorem C7_nonpositive_interval_rejected_witness :
    Client.wait_for_tx false 0
      [{ status := TxStatus.RECEIVED, block_number := none }] =
      (WaitOutcome.valueError, 0) ∧
    Client.wait_for_tx true (-1) [] = (WaitOutcome.valueError, 0) :=
  ⟨C7_nonpositive_interval_rejected false 0
      [{ status := TxStatus.RECEIVED, block_number := none }] (by decide),
   C7_nonpositive_interval_rejected true (-1) [] (by decide)⟩
